import Mathlib

/-!
Verification of the Open-CoWork agent tool-execution boundary.

The definitions below are a shallow embedding of the renderer tool catalog
(`src/renderer/services/ai/tools.ts`), the main-process IPC handlers
(`src/main/ipc/index.ts`, `src/main/ipc/skillregistry.ipc.ts`) and the
zustand stores (`src/renderer/stores/todoStore.ts`,
`src/renderer/stores/questionStore.ts`, `src/renderer/stores/browserStore.ts`).
Characters are modelled by their Unicode code points (`Nat`); JavaScript
falsiness of strings/numbers is modelled explicitly where the code relies
on it.
-/

namespace OpenCoWork

/-! ## A model of the ECMAScript regular expressions used by the code

The main process compiles a fixed list of `BLOCKED_PATTERNS` regexes (with
the `i` flag) and tests shell commands against them, and `fs:grep` compiles
user patterns with the `gi` flags.  We model exactly the constructs those
regexes use: case-insensitive literal characters, the classes `\s`,
`[a-zA-Z]` and `.`, the quantifiers `*` and `+` on a class, optional
groups, alternation, and the word-boundary assertion `\b`.  `RegExp.test`
(and the truthiness of `String.match`) is "some match exists somewhere in
the string", which is what `searchR` computes.
-/

/-- Case folding used by the `i` flag on the ASCII-only patterns of the
source: uppercase ASCII letters are mapped to lowercase, every other code
point is left alone (ECMAScript canonicalisation in non-unicode mode never
identifies a non-ASCII character with an ASCII one). -/
def foldCase (n : Nat) : Nat := if 65 ≤ n ∧ n ≤ 90 then n + 32 else n

/-- Code points of a Lean string, the alphabet our regex model runs on. -/
def codes (s : String) : List Nat := s.toList.map Char.toNat

/-- Character classes appearing in the source regexes. -/
inductive RPred where
  /-- a literal pattern character, matched case-insensitively (`i` flag) -/
  | litCI (code : Nat)
  /-- the class `\s` -/
  | spaceCl
  /-- the class `[a-zA-Z]` -/
  | alphaCl
  /-- the metacharacter `.` (anything but a line terminator) -/
  | dotCl
deriving DecidableEq, Repr

/-- Membership of the ECMAScript `\s` class (WhiteSpace ∪ LineTerminator). -/
def isJsSpace (n : Nat) : Bool :=
  n == 32 || n == 9 || n == 10 || n == 11 || n == 12 || n == 13 ||
  n == 160 || n == 0x1680 || (0x2000 ≤ n && n ≤ 0x200A) ||
  n == 0x2028 || n == 0x2029 || n == 0x202F || n == 0x205F ||
  n == 0x3000 || n == 0xFEFF

/-- Membership of the ECMAScript `\w` class `[A-Za-z0-9_]`, used by `\b`. -/
def isWordCode (n : Nat) : Bool :=
  (97 ≤ n && n ≤ 122) || (65 ≤ n && n ≤ 90) || (48 ≤ n && n ≤ 57) || n == 95

/-- Membership of `[a-zA-Z]`. -/
def isAsciiLetterCode (n : Nat) : Bool :=
  (97 ≤ n && n ≤ 122) || (65 ≤ n && n ≤ 90)

/-- Membership of `.` (any code point except a line terminator). -/
def isDotCode (n : Nat) : Bool :=
  !(n == 10 || n == 13 || n == 0x2028 || n == 0x2029)

/-- Evaluation of a character class on a code point. -/
def evalPred : RPred → Nat → Bool
  | .litCI m, n => foldCase n == foldCase m
  | .spaceCl, n => isJsSpace n
  | .alphaCl, n => isAsciiLetterCode n
  | .dotCl, n => isDotCode n

/-- Abstract syntax of the regex fragment used by the source. -/
inductive JSRegex where
  /-- the empty pattern -/
  | eps
  /-- a single character class -/
  | chr (p : RPred)
  /-- concatenation -/
  | cat (a b : JSRegex)
  /-- alternation `a|b` -/
  | alt (a b : JSRegex)
  /-- an optional group `(a)?` -/
  | opt (a : JSRegex)
  /-- `p*` on a character class -/
  | star (p : RPred)
  /-- `p+` on a character class -/
  | plus (p : RPred)
  /-- the word-boundary assertion `\b` -/
  | bound
deriving Repr

/-- Word-ness of the character left of the current position (`none` at the
start of the input). -/
def wordBefore : Option Nat → Bool
  | none => false
  | some c => isWordCode c

/-- Word-ness of the character at the current position. -/
def wordAfter : List Nat → Bool
  | [] => false
  | c :: _ => isWordCode c

/-- The `\b` assertion: exactly one of the two neighbouring characters is a
word character. -/
def atBoundary (prev : Option Nat) (s : List Nat) : Bool :=
  wordBefore prev != wordAfter s

/-- Matching loop for `p*`: either stop and hand the rest of the input to
the continuation, or consume one more character of the class.  Returns true
iff some number of repetitions lets the continuation succeed, which is the
backtracking semantics of ECMAScript on these patterns. -/
def starLoop (p : RPred) (k : Option Nat → List Nat → Bool) :
    Option Nat → List Nat → Bool
  | prev, [] => k prev []
  | prev, c :: t => k prev (c :: t) || (evalPred p c && starLoop p k (some c) t)

/-- CPS matcher: `matchR r prev s k` is true iff some prefix of `s` matches
`r` (with `prev` the character just before `s`, for `\b`) and the
continuation `k` accepts the remainder. -/
def matchR : JSRegex → Option Nat → List Nat → (Option Nat → List Nat → Bool) → Bool
  | .eps, prev, s, k => k prev s
  | .chr p, _, s, k =>
    match s with
    | [] => false
    | c :: t => evalPred p c && k (some c) t
  | .cat a b, prev, s, k => matchR a prev s (fun pv t => matchR b pv t k)
  | .alt a b, prev, s, k => matchR a prev s k || matchR b prev s k
  | .opt a, prev, s, k => matchR a prev s k || k prev s
  | .star p, prev, s, k => starLoop p k prev s
  | .plus p, _, s, k =>
    match s with
    | [] => false
    | c :: t => evalPred p c && starLoop p k (some c) t
  | .bound, prev, s, k => atBoundary prev s && k prev s

/-- Existence of a match starting at some position of the input: the
meaning of `RegExp.prototype.test`. -/
def searchR (r : JSRegex) : Option Nat → List Nat → Bool
  | prev, [] => matchR r prev [] (fun _ _ => true)
  | prev, c :: t => matchR r prev (c :: t) (fun _ _ => true) || searchR r (some c) t

/-- `regexTest r s` models `r.test(s)` for a regex `r` of our fragment. -/
def regexTest (r : JSRegex) (s : String) : Bool :=
  searchR r none (codes s)

/-- A literal pattern character under the `i` flag. -/
def lit (c : Char) : JSRegex := .chr (.litCI c.toNat)

/-- Concatenation of a list of regexes. -/
def seqR (l : List JSRegex) : JSRegex := l.foldr .cat .eps

/-- A literal word, character by character. -/
def lits (s : String) : JSRegex := seqR (s.toList.map lit)

/-- A literal pattern character given by code point (used for `{` and `}`). -/
def litN (n : Nat) : JSRegex := .chr (.litCI n)

/-! ## The command safety gate (`BLOCKED_PATTERNS` in `src/main/ipc/index.ts`)

Each definition transcribes one regex of the source array, in order, paired
with the string `RegExp.prototype.toString()` produces for it — that string
is interpolated into the rejection message by the `fs:bash` handler. -/

/-- Transcribes `/\brm\s+(-[a-zA-Z]*f|-[a-zA-Z]*r|--force|--recursive)/i`. -/
def patRmFlags : JSRegex :=
  seqR [.bound, lits "rm", .plus .spaceCl,
    .alt (seqR [lit '-', .star .alphaCl, lit 'f'])
      (.alt (seqR [lit '-', .star .alphaCl, lit 'r'])
        (.alt (lits "--force") (lits "--recursive")))]

/-- Transcribes `/\brm\s+-rf\b/i`. -/
def patRmRf : JSRegex :=
  seqR [.bound, lits "rm", .plus .spaceCl, lits "-rf", .bound]

/-- Transcribes `/\brm\s+-fr\b/i`. -/
def patRmFr : JSRegex :=
  seqR [.bound, lits "rm", .plus .spaceCl, lits "-fr", .bound]

/-- Transcribes `/\bsudo\s+rm\b/i`. -/
def patSudoRm : JSRegex :=
  seqR [.bound, lits "sudo", .plus .spaceCl, lits "rm", .bound]

/-- Transcribes `/\bmkfs\b/i`. -/
def patMkfs : JSRegex := seqR [.bound, lits "mkfs", .bound]

/-- Transcribes `/\bdd\s+.*\bof=/i`. -/
def patDdOf : JSRegex :=
  seqR [.bound, lits "dd", .plus .spaceCl, .star .dotCl, .bound, lits "of="]

/-- Transcribes the fork-bomb pattern `/\b:.*\(\).*\{.*:\|.*\}/i`
(code points 123 and 125 are the braces). -/
def patForkBomb : JSRegex :=
  seqR [.bound, lit ':', .star .dotCl, lit '(', lit ')', .star .dotCl,
    litN 123, .star .dotCl, lit ':', lit '|', .star .dotCl, litN 125]

/-- Transcribes `/\bchmod\s+(-[a-zA-Z]*)?\s*(000|777|a-rwx)/i`. -/
def patChmod : JSRegex :=
  seqR [.bound, lits "chmod", .plus .spaceCl,
    .opt (seqR [lit '-', .star .alphaCl]), .star .spaceCl,
    .alt (lits "000") (.alt (lits "777") (lits "a-rwx"))]

/-- Transcribes `/\bchown\s+.*\//i`. -/
def patChown : JSRegex :=
  seqR [.bound, lits "chown", .plus .spaceCl, .star .dotCl, lit '/']

/-- Transcribes `/>\s*\/dev\/(sda|hda|null)/i`. -/
def patDevWrite : JSRegex :=
  seqR [lit '>', .star .spaceCl, lit '/', lits "dev/",
    .alt (lits "sda") (.alt (lits "hda") (lits "null"))]

/-- The ordered list of dangerous-command patterns, each paired with its
JavaScript `toString()` rendering (the text interpolated into the
rejection message). -/
def BLOCKED_PATTERNS : List (JSRegex × String) :=
  [(patRmFlags, "/\\brm\\s+(-[a-zA-Z]*f|-[a-zA-Z]*r|--force|--recursive)/i"),
   (patRmRf, "/\\brm\\s+-rf\\b/i"),
   (patRmFr, "/\\brm\\s+-fr\\b/i"),
   (patSudoRm, "/\\bsudo\\s+rm\\b/i"),
   (patMkfs, "/\\bmkfs\\b/i"),
   (patDdOf, "/\\bdd\\s+.*\\bof=/i"),
   (patForkBomb, "/\\b:.*\\(\\).*\\\x7b.*:\\|.*\\\x7d/i"),
   (patChmod, "/\\bchmod\\s+(-[a-zA-Z]*)?\\s*(000|777|a-rwx)/i"),
   (patChown, "/\\bchown\\s+.*\\//i"),
   (patDevWrite, "/>\\s*\\/dev\\/(sda|hda|null)/i")]

/-- The safety gate: a command is blocked iff some pattern matches it
(`pattern.test(command)` inside the `fs:bash` handler loop). -/
def isBlocked (cmd : String) : Bool :=
  BLOCKED_PATTERNS.any fun pr => regexTest pr.1 cmd

/-- The `toString()` text of the first matching pattern — the handler loop
throws on the first pattern whose `test` succeeds. -/
def firstBlocked (cmd : String) : Option String :=
  (BLOCKED_PATTERNS.find? fun pr => regexTest pr.1 cmd).map fun pr => pr.2

/-- First matching pattern text, defaulting to the empty string. -/
def firstBlockedStr (cmd : String) : String := (firstBlocked cmd).getD ""

/-! ## JavaScript falsiness helpers -/

/-- JavaScript `s || d` on strings: the empty string is falsy. -/
def jsOrStr (s d : String) : String := if s = "" then d else s

/-- JavaScript `o || d` where `o` may be `undefined` or a string. -/
def jsOrOptStr (o : Option String) (d : String) : String :=
  match o with
  | none => d
  | some s => jsOrStr s d

/-- JavaScript truthiness of a possibly-undefined string. -/
def jsTruthyOptStr : Option String → Bool
  | none => false
  | some s => s != ""

/-- JavaScript `a || b` where both sides may be `undefined`. -/
def jsOrOpt (a b : Option String) : Option String :=
  if jsTruthyOptStr a then a else b

/-- Template-literal rendering of a possibly-undefined string
(`undefined` prints as the text `undefined`). -/
def jsTemplate : Option String → String
  | none => "undefined"
  | some s => s

/-- JavaScript `o || d` where `o` is a possibly-undefined number
(zero is falsy). -/
def jsOrInt (o : Option Int) (d : Int) : Int :=
  match o with
  | none => d
  | some v => if v = 0 then d else v

/-- Whether one character list starts another, then occurs anywhere. -/
def listSubOf (needle : List Char) : List Char → Bool
  | [] => needle.isEmpty
  | c :: t => needle.isPrefixOf (c :: t) || listSubOf needle t

/-- Whether `needle` occurs as a contiguous substring of `hay`. -/
def substrOf (needle hay : String) : Bool :=
  listSubOf needle.toList hay.toList

/-! ## The `fs:bash` handler and the renderer `bash` tool

`fs:bash` (main process) first runs the safety gate, throwing a rejection
message naming the first matching pattern; otherwise it runs the command
through `execAsync` and normalises the outcome.  The renderer `bash` tool
clamps the timeout, invokes the handler, and converts the reply into the
agent-facing result shape.  The behaviour of `execAsync` itself is a
collaborator and enters the model as an explicit `ExecOutcome` argument
(its resolved value, or the fields of its rejection error). -/

/-- Outcome of the `execAsync` collaborator: fulfilled with captured
streams, or rejected with an error carrying an optional numeric code, the
`killed` flag, captured streams and an error message. -/
inductive ExecOutcome where
  | ok (stdout stderr : String)
  | err (code : Option Nat) (killed : Bool) (stdout stderr message : String)
deriving DecidableEq, Repr

/-- Reply shape of the `fs:bash` IPC handler. -/
structure BashIpcResult where
  stdout : String
  stderr : String
  exitCode : Nat
deriving DecidableEq, Repr

/-- JavaScript `err.code || 1` (a code of `0` or `undefined` becomes 1). -/
def jsExitCode (code : Option Nat) : Nat :=
  match code with
  | none => 1
  | some n => if n = 0 then 1 else n

/-- Timeout actually used by the `fs:bash` handler:
`options?.timeout || 30000`. -/
def fsBashTimeout (t : Option Int) : Int := jsOrInt t 30000

/-- Timeout the renderer `bash` tool passes to the handler:
`Math.min(timeout || 30000, 120000)`. -/
def rendererBashTimeout (t : Option Int) : Int :=
  min (jsOrInt t 30000) 120000

/-- Timeout that finally reaches `execAsync` when the renderer `bash`
tool is the caller. -/
def bashDispatchTimeout (t : Option Int) : Int :=
  fsBashTimeout (some (rendererBashTimeout t))

/-- Rejection message thrown by the gate, naming the matched pattern. -/
def blockedMessage (pstr : String) : String :=
  "This command has been blocked for safety. The pattern \"" ++ pstr ++
    "\" is not allowed. " ++
    "Destructive commands like rm -rf, sudo rm, mkfs, dd, etc. are not permitted."

/-- Timeout message thrown when the process was killed
(integer division stands in for JavaScript number division; no claim
touches this string). -/
def bashTimeoutMessage (t : Int) : String :=
  "Command timed out after " ++ toString (t / 1000) ++ " seconds"

/-- The `fs:bash` IPC handler: `Except.error` is a thrown fault crossing
the IPC boundary, `Except.ok` a structured reply. -/
def fsBash (cmd : String) (t : Option Int) (exec : ExecOutcome) :
    Except String BashIpcResult :=
  match firstBlocked cmd with
  | some pstr => .error (blockedMessage pstr)
  | none =>
    match exec with
    | .ok out errS => .ok ⟨jsOrStr out "", jsOrStr errS "", 0⟩
    | .err code killed out errS msg =>
      if killed then .error (bashTimeoutMessage (fsBashTimeout t))
      else .ok ⟨jsOrStr out "", jsOrStr errS msg, jsExitCode code⟩

/-- Result shape of the renderer `bash` tool: `ok` is the success payload,
`failed` the non-zero-exit payload (`success: false`), `fault` the payload
built in the `catch` branch (`error: true`). -/
inductive BashToolResult where
  | ok (exitCode : Nat) (stdout : String) (stderr : Option String)
  | failed (exitCode : Nat) (stdout stderr message suggestion : String)
  | fault (message suggestion : String)
deriving DecidableEq, Repr

/-- Suggestion attached to a non-zero-exit failure:
`result.stderr ? ... : ...`. -/
def bashFailedSuggestion (stderr : String) : String :=
  if stderr = "" then "Check the command syntax and try again"
  else "Error output: " ++ stderr

/-- The renderer `bash` tool executor. -/
def bashTool (cmd : String) (t : Option Int) (exec : ExecOutcome) :
    BashToolResult :=
  match fsBash cmd (some (rendererBashTimeout t)) exec with
  | .error m =>
    .fault m "This command may be blocked for safety reasons, or the path may be invalid"
  | .ok r =>
    if r.exitCode ≠ 0 then
      .failed r.exitCode r.stdout r.stderr
        ("Command failed with exit code " ++ toString r.exitCode)
        (bashFailedSuggestion r.stderr)
    else .ok 0 r.stdout (if r.stderr = "" then none else some r.stderr)

/-! ## Browser tools (`tools.ts`) and the configuration gate

`checkBrowserConfigured` reads the settings record; when no preferred
browser is set it raises the selection-dialog signal
(`useBrowserStore.getState().setShowSelectionDialog(true)`) and reports
`needsSetup`.  Each browser tool executor is transcribed below; the
`window.api.browser*` collaborator enters as an explicit `ApiOutcome`
(its structured reply, or a thrown fault caught by the executor), and the
side effects of a call are returned as a `BrowserEffects` record:
how many times the dialog signal was raised and whether the collaborator
was invoked at all. -/

/-- The settings record, as far as the browser gate reads it. -/
structure SettingsRec where
  preferredBrowser : Option String := none
deriving DecidableEq, Repr

/-- Reply of `checkBrowserConfigured`, plus the number of dialog signals
it raised. -/
structure BrowserCheck where
  configured : Bool
  needsSetup : Bool
  dialogSignals : Nat
deriving DecidableEq, Repr

/-- Transcribes `checkBrowserConfigured`: `!settings?.preferredBrowser`
shows the dialog once and reports `needsSetup`. -/
def checkBrowserConfigured (settings : Option SettingsRec) : BrowserCheck :=
  if jsTruthyOptStr (settings.bind SettingsRec.preferredBrowser) then
    ⟨true, false, 0⟩
  else ⟨false, true, 1⟩

/-- Structured reply of a `window.api.browser*` call. -/
structure BrowserApiResult where
  error : Bool := false
  message : Option String := none
  url : Option String := none
  title : Option String := none
  screenshot : Option String := none
  content : Option String := none
  count : Option Nat := none
  links : List String := []
  image : Option String := none
deriving DecidableEq, Repr

/-- Outcome of a `window.api.browser*` invocation: a structured reply or
a thrown fault (caught by the executor's `catch`). -/
inductive ApiOutcome where
  | ok (r : BrowserApiResult)
  | thrown (msg : String)
deriving DecidableEq, Repr

/-- Result object a tool executor hands back to the agent runtime. -/
structure ToolReply where
  success : Bool := false
  error : Bool := false
  needsBrowserSetup : Bool := false
  message : Option String := none
  suggestion : Option String := none
  url : Option String := none
  title : Option String := none
  content : Option String := none
  screenshot : Option String := none
  count : Option Nat := none
  links : List String := []
  image : Option String := none
deriving DecidableEq, Repr

/-- Observable side effects of one browser tool call. -/
structure BrowserEffects where
  dialogSignals : Nat
  dispatched : Bool
deriving DecidableEq, Repr

/-- Transcribes the `browserNavigate` executor (the only one that calls
`checkBrowserConfigured`). -/
def browserNavigateTool (url : String) (settings : Option SettingsRec)
    (api : ApiOutcome) : ToolReply × BrowserEffects :=
  let chk := checkBrowserConfigured settings
  if !chk.configured then
    ({ error := true
       message := some "Browser not configured. A dialog has been shown to the user to select their preferred browser."
       suggestion := some "Wait for the user to select a browser, then try again."
       needsBrowserSetup := true },
     ⟨chk.dialogSignals, false⟩)
  else
    match api with
    | .thrown m =>
      ({ error := true, message := some m
         suggestion := some "The browser may not be available. Try again." },
       ⟨chk.dialogSignals, true⟩)
    | .ok r =>
      if r.error then
        ({ error := true, message := some (jsOrOptStr r.message "Navigation failed")
           suggestion := some "Check if the URL is valid and try again" },
         ⟨chk.dialogSignals, true⟩)
      else
        ({ success := true, url := r.url, title := r.title
           message := some ("Navigated to " ++ jsTemplate (jsOrOpt r.title r.url))
           screenshot := r.screenshot },
         ⟨chk.dialogSignals, true⟩)

/-- Transcribes the `browserGetContent` executor. -/
def browserGetContentTool (selector : Option String) (api : ApiOutcome) :
    ToolReply × BrowserEffects :=
  match api with
  | .thrown m =>
    ({ error := true, message := some m
       suggestion := some "Make sure you have navigated to a page first" },
     ⟨0, true⟩)
  | .ok r =>
    if r.error then
      ({ error := true, message := some (jsOrOptStr r.message "Failed to get content")
         suggestion := some (if jsTruthyOptStr selector then
            "The selector may not exist on this page. Try a different one."
           else "Navigate to a page first.") },
       ⟨0, true⟩)
    else
      ({ success := true, url := r.url, title := r.title, content := r.content
         screenshot := r.screenshot }, ⟨0, true⟩)

/-- Transcribes the `browserClick` executor. -/
def browserClickTool (selector : String) (api : ApiOutcome) :
    ToolReply × BrowserEffects :=
  match api with
  | .thrown m =>
    ({ error := true, message := some m
       suggestion := some "Check if the element exists and is visible" },
     ⟨0, true⟩)
  | .ok r =>
    if r.error then
      ({ error := true, message := some (jsOrOptStr r.message "Click failed")
         suggestion := some "The element may not exist or may not be clickable. Try a different selector." },
       ⟨0, true⟩)
    else
      ({ success := true, url := r.url, title := r.title
         message := some ("Clicked on \"" ++ selector ++ "\"")
         screenshot := r.screenshot }, ⟨0, true⟩)

/-- Transcribes the `browserType` executor. -/
def browserTypeTool (selector text : String) (api : ApiOutcome) :
    ToolReply × BrowserEffects :=
  match api with
  | .thrown m =>
    ({ error := true, message := some m
       suggestion := some "Check if the input field exists and is editable" },
     ⟨0, true⟩)
  | .ok r =>
    if r.error then
      ({ error := true, message := some (jsOrOptStr r.message "Type failed")
         suggestion := some "The input field may not exist. Try a different selector." },
       ⟨0, true⟩)
    else
      ({ success := true
         message := some ("Typed \"" ++ text ++ "\" into " ++ selector)
         screenshot := r.screenshot }, ⟨0, true⟩)

/-- Transcribes the `browserPress` executor. -/
def browserPressTool (key : String) (api : ApiOutcome) :
    ToolReply × BrowserEffects :=
  match api with
  | .thrown m => ({ error := true, message := some m }, ⟨0, true⟩)
  | .ok r =>
    if r.error then
      ({ error := true, message := some (jsOrOptStr r.message "Key press failed") },
       ⟨0, true⟩)
    else
      ({ success := true, url := r.url, message := some ("Pressed " ++ key)
         screenshot := r.screenshot }, ⟨0, true⟩)

/-- Transcribes the `browserGetLinks` executor. -/
def browserGetLinksTool (api : ApiOutcome) : ToolReply × BrowserEffects :=
  match api with
  | .thrown m => ({ error := true, message := some m }, ⟨0, true⟩)
  | .ok r =>
    if r.error then
      ({ error := true, message := some (jsOrOptStr r.message "Failed to get links")
         suggestion := some "Navigate to a page first" }, ⟨0, true⟩)
    else
      ({ success := true, count := r.count, links := r.links }, ⟨0, true⟩)

/-- Transcribes the `browserScroll` executor. -/
def browserScrollTool (direction : String) (api : ApiOutcome) :
    ToolReply × BrowserEffects :=
  match api with
  | .thrown m => ({ error := true, message := some m }, ⟨0, true⟩)
  | .ok r =>
    if r.error then
      ({ error := true, message := some (jsOrOptStr r.message "Scroll failed") },
       ⟨0, true⟩)
    else
      ({ success := true, message := some ("Scrolled " ++ direction)
         screenshot := r.screenshot }, ⟨0, true⟩)

/-- Transcribes the `browserScreenshot` executor. -/
def browserScreenshotTool (api : ApiOutcome) : ToolReply × BrowserEffects :=
  match api with
  | .thrown m => ({ error := true, message := some m }, ⟨0, true⟩)
  | .ok r =>
    if r.error then
      ({ error := true, message := some (jsOrOptStr r.message "Screenshot failed")
         suggestion := some "Navigate to a page first" }, ⟨0, true⟩)
    else
      ({ success := true, url := r.url, title := r.title, image := r.image
         message := some "Screenshot captured" }, ⟨0, true⟩)

/-- The eight page-operating browser tools of the catalog (`browserClose`
is session teardown and outside the claim). -/
inductive BrowserTool where
  | navigate | getContent | click | typeText | press | getLinks | scroll
  | screenshot
deriving DecidableEq, Repr

/-- Uniform dispatcher over the browser tools: `arg1`/`arg2` stand for the
string parameters of the individual tool. -/
def runBrowserTool (tool : BrowserTool) (arg1 arg2 : String)
    (settings : Option SettingsRec) (api : ApiOutcome) :
    ToolReply × BrowserEffects :=
  match tool with
  | .navigate => browserNavigateTool arg1 settings api
  | .getContent => browserGetContentTool (some arg1) api
  | .click => browserClickTool arg1 api
  | .typeText => browserTypeTool arg1 arg2 api
  | .press => browserPressTool arg1 api
  | .getLinks => browserGetLinksTool api
  | .scroll => browserScrollTool arg1 api
  | .screenshot => browserScreenshotTool api

/-! ## Skill-registry search (`skillregistry.ipc.ts`, `SkillsMarketplace.tsx`
and the `searchSkills` tool)

The main-process handler `skillregistry:search` fetches from the registry
and converts every failure — rejected fetch (network error) and non-ok
HTTP status alike — into an empty list.  The renderer callers therefore
only see a thrown fault when the IPC invocation itself fails, which the
`IpcOutcome` type makes explicit. -/

/-- A skill record returned by the registry. -/
structure RegistrySkillR where
  id : String
  name : String
  description : String
deriving DecidableEq, Repr

/-- Outcome of the registry fetch inside the main-process handler. -/
inductive RegistryOutcome where
  /-- `fetch` rejected (network error) -/
  | netError
  /-- `response.ok` was false -/
  | httpError (status : Nat)
  /-- JSON body was an array of skills -/
  | okArray (skills : List RegistrySkillR)
  /-- JSON body was an object; `data.skills || []` is applied -/
  | okObject (skills : Option (List RegistrySkillR))
deriving DecidableEq, Repr

/-- Transcribes the `skillregistry:search` handler body. -/
def skillregistrySearchHandler : RegistryOutcome → List RegistrySkillR
  | .netError => []
  | .httpError _ => []
  | .okArray l => l
  | .okObject o => o.getD []

/-- Outcome of invoking the handler over IPC from the renderer: the
handler ran (returning its value), or the invocation itself faulted. -/
inductive IpcOutcome where
  | handled (o : RegistryOutcome)
  | ipcFault (msg : String)
deriving DecidableEq, Repr

/-- Transcribes `searchSkillRegistry` in `SkillsMarketplace.tsx` — the
UI-facing search path: any caught fault degrades to an empty list. -/
def uiSearchSkillRegistry : IpcOutcome → List RegistrySkillR
  | .handled o => skillregistrySearchHandler o
  | .ipcFault _ => []

/-- A skill listing in the agent tool's success payload. -/
structure SkillListing where
  id : String
  name : String
  description : String
  url : String
deriving DecidableEq, Repr

/-- Result shape of the agent-facing `searchSkills` tool. -/
inductive SearchSkillsResult where
  /-- `success: true` with an empty skill list -/
  | okEmpty (message : String)
  /-- `success: true` with found skills -/
  | okFound (skills : List SkillListing) (count : Nat) (message : String)
  /-- the `catch` branch: `error: true` with a suggestion -/
  | failure (message suggestion : String)
deriving DecidableEq, Repr

/-- Whether a `searchSkills` result is the Failure shape. -/
def isFailureResult : SearchSkillsResult → Bool
  | .failure _ _ => true
  | _ => false

/-- Transcribes the agent-facing `searchSkills` tool executor. -/
def searchSkillsTool (query : String) : IpcOutcome → SearchSkillsResult
  | .handled o =>
    let skills := skillregistrySearchHandler o
    if skills.isEmpty then
      .okEmpty ("No skills found for \"" ++ query ++
        "\". You may need to use the browser instead.")
    else
      .okFound
        (skills.map fun s =>
          ⟨s.id, s.name, s.description, "https://skillregistry.io/skills/" ++ s.id⟩)
        skills.length
        ("Found " ++ toString skills.length ++ " skill(s) for \"" ++ query ++
          "\". Install a relevant skill to use it.")
  | .ipcFault m => .failure m "Network error. You can try the browser instead."

/-! ## The question store (`questionStore.ts`) -/

/-- A multiple-choice option. -/
structure QuestionOptionR where
  id : String
  label : String
deriving DecidableEq, Repr

/-- A question as supplied to `setQuestions`
(`Omit<Question, 'selectedOptionId' | 'customAnswer'>`). -/
structure QuestionInput where
  id : String
  question : String
  options : List QuestionOptionR
  allowCustom : Bool
deriving DecidableEq, Repr

/-- A question held in the store. -/
structure QuestionR where
  id : String
  question : String
  options : List QuestionOptionR
  allowCustom : Bool
  selectedOptionId : Option String
  customAnswer : Option String
deriving DecidableEq, Repr

/-- The active question set. -/
structure QuestionSetR where
  id : String
  questions : List QuestionR
  currentIndex : Nat
  submitted : Bool
deriving DecidableEq, Repr

/-- Store state: `activeQuestionSet` may be null. -/
abbrev QuestionState := Option QuestionSetR

/-- Transcribes `setQuestions` (`now` models `Date.now()`); returns the
new state and the generated set id. -/
def setQuestionsState (now : Nat) (inputs : List QuestionInput) :
    QuestionState × String :=
  let id := "qs-" ++ toString now
  (some
    { id := id
      questions := inputs.enum.map fun p =>
        { id := jsOrStr p.2.id ("q-" ++ toString p.1)
          question := p.2.question
          options := p.2.options
          allowCustom := p.2.allowCustom
          selectedOptionId := none
          customAnswer := none }
      currentIndex := 0
      submitted := false },
   id)

/-- Transcribes `selectOption`. -/
def selectOptionState (questionId optionId : String) :
    QuestionState → QuestionState
  | none => none
  | some s =>
    some { s with
      questions := s.questions.map fun q =>
        if q.id = questionId then
          { q with selectedOptionId := some optionId, customAnswer := none }
        else q }

/-- Transcribes `setCustomAnswer`. -/
def setCustomAnswerState (questionId answer : String) :
    QuestionState → QuestionState
  | none => none
  | some s =>
    some { s with
      questions := s.questions.map fun q =>
        if q.id = questionId then
          { q with selectedOptionId := none, customAnswer := some answer }
        else q }

/-- One answer snapshot entry. -/
structure AnswerPair where
  selectedOption : Option String
  customAnswer : Option String
deriving DecidableEq, Repr

/-- JavaScript object insertion `answers[k] = v`: overwrite in place when
the key exists, append otherwise. -/
def recUpsert (m : List (String × AnswerPair)) (k : String) (v : AnswerPair) :
    List (String × AnswerPair) :=
  if m.any (fun p => p.1 == k) then
    m.map fun p => if p.1 == k then (k, v) else p
  else m ++ [(k, v)]

/-- Answer snapshot of one question, as `submitAnswers` computes it:
the selected option's label (falsy selected id gives `undefined`), and the
custom answer text. -/
def answerOf (q : QuestionR) : AnswerPair :=
  { selectedOption :=
      match q.selectedOptionId with
      | some s =>
        if s = "" then none
        else (q.options.find? fun o => o.id == s).map QuestionOptionR.label
      | none => none
    customAnswer := q.customAnswer }

/-- Transcribes `submitAnswers`: builds the answers record and marks the
set submitted. -/
def submitAnswersState (st : QuestionState) :
    List (String × AnswerPair) × QuestionState :=
  match st with
  | none => ([], none)
  | some s =>
    (s.questions.foldl (fun m q => recUpsert m q.id (answerOf q)) [],
     some { s with submitted := true })

/-- The two answer-mutating operations of the claim. -/
inductive QOp where
  | select (questionId optionId : String)
  | custom (questionId answer : String)
deriving DecidableEq, Repr

/-- Application of one answer-mutating operation. -/
def applyQOp (op : QOp) (st : QuestionState) : QuestionState :=
  match op with
  | .select qid oid => selectOptionState qid oid st
  | .custom qid ans => setCustomAnswerState qid ans st

/-- Application of a sequence of answer-mutating operations. -/
def applyQOps (ops : List QOp) (st : QuestionState) : QuestionState :=
  ops.foldl (fun s op => applyQOp op s) st

/-- Mutual exclusion: no question of the active set holds both a selected
option id and a custom answer. -/
def mutualExclusion (st : QuestionState) : Prop :=
  ∀ s, st = some s → ∀ q ∈ s.questions,
    ¬(q.selectedOptionId.isSome = true ∧ q.customAnswer.isSome = true)

/-! ## The todo store (`todoStore.ts`) and the `todoWrite` tool -/

/-- Todo status enumeration. -/
inductive TodoStatusR where
  | pending | in_progress | completed
deriving DecidableEq, Repr

/-- A stored todo item. -/
structure TodoR where
  id : String
  content : String
  status : TodoStatusR
deriving DecidableEq, Repr

/-- A todo as supplied to the `todoWrite` tool (id optional). -/
structure TodoInput where
  id : Option String
  content : String
  status : TodoStatusR
deriving DecidableEq, Repr

/-- Id/index mapping performed by `todoWrite`
(`t.id || \`todo-${Date.now()}-${i}\``). -/
def mapTodos (now : Nat) (ts : List TodoInput) : List TodoR :=
  ts.enum.map fun p =>
    { id := jsOrStr (p.2.id.getD "") ("todo-" ++ toString now ++ "-" ++ toString p.1)
      content := p.2.content
      status := p.2.status }

/-- Transcribes the store action `setTodos`: plain replacement. -/
def setTodos (todos : List TodoR) (_store : List TodoR) : List TodoR := todos

/-- Store contents after a `todoWrite` call. -/
def todoWriteStore (now : Nat) (ts : List TodoInput) (store : List TodoR) :
    List TodoR :=
  setTodos (mapTodos now ts) store

/-! ## Pattern compilation in `fs:grep`

The handler tries `new RegExp(pattern, 'gi')`; when the constructor
throws it escapes every regex metacharacter and retries with
`new RegExp(escaped, 'gi')`.  Whether the constructor throws is a fact
about the ECMAScript pattern grammar, a platform collaborator; `scanRx`
below models that grammar (including the Annex-B web compatibility rules
that make lone `]`, `{` and `}` legal literals): it accepts a pattern
character, an escape `\<char>`, a character class `[...]`, a group
`(...)` (optionally `?:`/`?=`/`?!`/`?<=`/`?<!`-prefixed), the assertions
`^`/`$`, alternation `|`, and the quantifiers `*`/`+`/`?` (with an
optional lazy `?`) only after something quantifiable — and rejects
unbalanced parentheses, unclosed classes, dangling backslashes and
quantifiers with nothing to repeat. -/

/-- The metacharacter set of the escaping replace call in `fs:grep`:
`pattern.replace(/[.*+?^${}()|[\]\\]/g, '\\$&')` (code points 123 and 125
are the braces). -/
def isMetaChar (c : Char) : Bool :=
  c == '.' || c == '*' || c == '+' || c == '?' || c == '^' || c == '$' ||
  c == Char.ofNat 123 || c == Char.ofNat 125 || c == '(' || c == ')' ||
  c == '|' || c == '[' || c == ']' || c == '\\'

/-- Escaping of a character list: a backslash is put before every
metacharacter. -/
def escList (l : List Char) : List Char :=
  l.foldr (fun c acc => if isMetaChar c then '\\' :: c :: acc else c :: acc) []

/-- Transcribes the escaping replace call of `fs:grep`. -/
def escapeRegExp (p : String) : String := String.mk (escList p.toList)

/-- Quantifiability state of the pattern scanner. -/
inductive QuantState where
  /-- nothing quantifiable precedes (start, after `(`, `|` or a lazy mark) -/
  | noAtom
  /-- an atom or assertion precedes; a quantifier may follow -/
  | atom
  /-- a quantifier was just read; only a lazy `?` may extend it -/
  | afterQuant
deriving DecidableEq, Repr

/-- Scanner mode: inside the pattern proper, inside a `[...]` class,
after a backslash, or just after `(` / `(?` / `(?<`. -/
inductive ScanMode where
  | pat (q : QuantState)
  | cls
  | escPat
  | escCls
  | grpStart
  | grpQ
  | grpQLt
deriving DecidableEq, Repr

/-- Transition on one pattern character in ordinary pattern mode
(`d` counts open groups); `none` means a syntax error. -/
def patChar (c : Char) (d : Nat) (q : QuantState) : Option (Nat × ScanMode) :=
  if c = '(' then some (d + 1, .grpStart)
  else if c = ')' then
    if d = 0 then none else some (d - 1, .pat .atom)
  else if c = '|' then some (d, .pat .noAtom)
  else if c = '*' || c = '+' then
    if q = .atom then some (d, .pat .afterQuant) else none
  else if c = '?' then
    if q = .atom then some (d, .pat .afterQuant)
    else if q = .afterQuant then some (d, .pat .noAtom)
    else none
  else if c = '^' || c = '$' then some (d, .pat .atom)
  else if c = '\\' then some (d, .escPat)
  else if c = '[' then some (d, .cls)
  else some (d, .pat .atom)

/-- Transition on one character in any scanner mode. -/
def scanStep (c : Char) (d : Nat) : ScanMode → Option (Nat × ScanMode)
  | .pat q => patChar c d q
  | .cls =>
    if c = ']' then some (d, .pat .atom)
    else if c = '\\' then some (d, .escCls)
    else some (d, .cls)
  | .escPat => some (d, .pat .atom)
  | .escCls => some (d, .cls)
  | .grpStart => if c = '?' then some (d, .grpQ) else patChar c d .noAtom
  | .grpQ =>
    if c = ':' || c = '=' || c = '!' then some (d, .pat .noAtom)
    else if c = '<' then some (d, .grpQLt)
    else none
  | .grpQLt => if c = '=' || c = '!' then some (d, .pat .noAtom) else none

/-- Acceptance at end of input: only ordinary pattern mode with no open
group is legal (a dangling backslash, an unclosed class or an unfinished
group prefix is an error). -/
def scanEnd (d : Nat) : ScanMode → Bool
  | .pat _ => d == 0
  | _ => false

/-- Validity scanner for the modelled ECMAScript pattern grammar. -/
def scanRx : List Char → Nat → ScanMode → Bool
  | [], d, m => scanEnd d m
  | c :: rest, d, m =>
    match scanStep c d m with
    | none => false
    | some (d2, m2) => scanRx rest d2 m2

/-- Whether `new RegExp(p, 'gi')` succeeds, in the modelled grammar. -/
def jsRegexValid (p : String) : Bool := scanRx p.toList 0 (.pat .noAtom)

/-- The regex object `fs:grep` ends up searching with. -/
inductive GrepRegex where
  /-- the supplied pattern compiled as-is -/
  | compiled (source : String)
  /-- the escaped pattern after the constructor threw -/
  | literalFallback (source : String)
deriving DecidableEq, Repr

/-- Transcribes the try/catch around the two `new RegExp` calls. -/
def grepBuildRegex (p : String) : GrepRegex :=
  if jsRegexValid p then .compiled p else .literalFallback (escapeRegExp p)

/-- A sequence of case-insensitive literal characters, as a regex. -/
def litSeq (l : List Nat) : JSRegex := seqR (l.map fun n => .chr (.litCI n))

/-- Denotation of `new RegExp(escapeRegExp p, 'gi')` under ECMAScript
semantics: every character of `p` is escaped or a non-metacharacter, so
the compiled pattern is exactly the literal character sequence of `p`,
matched case-insensitively. -/
def escapedLiteralRegex (p : String) : JSRegex := litSeq (codes p)

/-- Case-insensitive prefix test on code-point lists. -/
def ciPrefixOf : List Nat → List Nat → Bool
  | [], _ => true
  | _ :: _, [] => false
  | c :: l, a :: t => (foldCase a == foldCase c) && ciPrefixOf l t

/-- Case-insensitive substring test on code-point lists. -/
def ciSubstrOf (l : List Nat) : List Nat → Bool
  | [] => ciPrefixOf l []
  | a :: t => ciPrefixOf l (a :: t) || ciSubstrOf l t

/-- Assigned question ids: the supplied id, or the positional fallback
`q-${i}` when the supplied id is falsy. -/
def assignedIds (inputs : List QuestionInput) : List String :=
  inputs.enum.map fun p => jsOrStr p.2.id ("q-" ++ toString p.1)

/-! ## General lemmas -/

theorem jsOrStr_empty_right (s : String) : jsOrStr s "" = s := by
  unfold jsOrStr
  split
  · simp_all
  · rfl

theorem foldCase_idem (n : Nat) : foldCase (foldCase n) = foldCase n := by
  unfold foldCase
  split
  · rename_i h
    rw [if_neg]
    omega
  · rfl

theorem isJsSpace_foldCase (n : Nat) : isJsSpace (foldCase n) = isJsSpace n := by
  unfold foldCase
  split
  · rename_i h
    have h1 : isJsSpace (n + 32) = false := by
      simp only [isJsSpace, Bool.or_eq_false_iff, beq_eq_false_iff_ne, ne_eq,
        Bool.and_eq_false_iff, decide_eq_false_iff_not, not_le]
      omega
    have h2 : isJsSpace n = false := by
      simp only [isJsSpace, Bool.or_eq_false_iff, beq_eq_false_iff_ne, ne_eq,
        Bool.and_eq_false_iff, decide_eq_false_iff_not, not_le]
      omega
    rw [h1, h2]
  · rfl

theorem isWordCode_foldCase (n : Nat) : isWordCode (foldCase n) = isWordCode n := by
  unfold foldCase
  split
  · rename_i h
    have h1 : isWordCode (n + 32) = true := by
      simp only [isWordCode, Bool.or_eq_true, Bool.and_eq_true, decide_eq_true_eq,
        beq_iff_eq]
      omega
    have h2 : isWordCode n = true := by
      simp only [isWordCode, Bool.or_eq_true, Bool.and_eq_true, decide_eq_true_eq,
        beq_iff_eq]
      omega
    rw [h1, h2]
  · rfl

theorem isAsciiLetterCode_foldCase (n : Nat) :
    isAsciiLetterCode (foldCase n) = isAsciiLetterCode n := by
  unfold foldCase
  split
  · rename_i h
    have h1 : isAsciiLetterCode (n + 32) = true := by
      simp only [isAsciiLetterCode, Bool.or_eq_true, Bool.and_eq_true,
        decide_eq_true_eq]
      omega
    have h2 : isAsciiLetterCode n = true := by
      simp only [isAsciiLetterCode, Bool.or_eq_true, Bool.and_eq_true,
        decide_eq_true_eq]
      omega
    rw [h1, h2]
  · rfl

theorem isDotCode_foldCase (n : Nat) : isDotCode (foldCase n) = isDotCode n := by
  unfold foldCase
  split
  · rename_i h
    have h1 : isDotCode (n + 32) = true := by
      simp only [isDotCode, Bool.not_eq_true', Bool.or_eq_false_iff,
        beq_eq_false_iff_ne, ne_eq]
      omega
    have h2 : isDotCode n = true := by
      simp only [isDotCode, Bool.not_eq_true', Bool.or_eq_false_iff,
        beq_eq_false_iff_ne, ne_eq]
      omega
    rw [h1, h2]
  · rfl

/-- Every character class of the modelled fragment is insensitive to ASCII
case folding. -/
theorem evalPred_foldCase (p : RPred) (n : Nat) :
    evalPred p (foldCase n) = evalPred p n := by
  cases p with
  | litCI m => simp [evalPred, foldCase_idem]
  | spaceCl => exact isJsSpace_foldCase n
  | alphaCl => exact isAsciiLetterCode_foldCase n
  | dotCl => exact isDotCode_foldCase n

/-! ## Case-folding invariance of the matcher -/


theorem wordBefore_fold (prev : Option Nat) :
    wordBefore (prev.map foldCase) = wordBefore prev := by
  cases prev <;> simp [wordBefore, isWordCode_foldCase]

theorem wordAfter_fold (s : List Nat) :
    wordAfter (s.map foldCase) = wordAfter s := by
  cases s <;> simp [wordAfter, isWordCode_foldCase]

theorem atBoundary_fold (prev : Option Nat) (s : List Nat) :
    atBoundary (prev.map foldCase) (s.map foldCase) = atBoundary prev s := by
  simp [atBoundary, wordBefore_fold, wordAfter_fold]

theorem starLoop_fold (p : RPred) (s : List Nat) :
    ∀ (prev : Option Nat) (k k' : Option Nat → List Nat → Bool),
      (∀ pv t, k pv t = k' (pv.map foldCase) (t.map foldCase)) →
      starLoop p k prev s = starLoop p k' (prev.map foldCase) (s.map foldCase) := by
  induction s with
  | nil =>
    intro prev k k' hk
    simpa [starLoop] using hk prev []
  | cons c t ih =>
    intro prev k k' hk
    simp only [starLoop, List.map_cons]
    rw [hk prev (c :: t), evalPred_foldCase, ih (some c) k k' hk]
    rfl

theorem matchR_fold (r : JSRegex) :
    ∀ (prev : Option Nat) (s : List Nat) (k k' : Option Nat → List Nat → Bool),
      (∀ pv t, k pv t = k' (pv.map foldCase) (t.map foldCase)) →
      matchR r prev s k = matchR r (prev.map foldCase) (s.map foldCase) k' := by
  induction r with
  | eps =>
    intro prev s k k' hk
    simpa [matchR] using hk prev s
  | chr p =>
    intro prev s k k' hk
    cases s with
    | nil => simp [matchR]
    | cons c t =>
      simp only [matchR, List.map_cons]
      rw [evalPred_foldCase, hk (some c) t]
      rfl
  | cat a b iha ihb =>
    intro prev s k k' hk
    simp only [matchR]
    exact iha prev s _ _ fun pv t => ihb pv t k k' hk
  | alt a b iha ihb =>
    intro prev s k k' hk
    simp only [matchR]
    rw [iha prev s k k' hk, ihb prev s k k' hk]
  | opt a iha =>
    intro prev s k k' hk
    simp only [matchR]
    rw [iha prev s k k' hk, hk prev s]
  | star p =>
    intro prev s k k' hk
    simp only [matchR]
    exact starLoop_fold p s prev k k' hk
  | plus p =>
    intro prev s k k' hk
    cases s with
    | nil => simp [matchR]
    | cons c t =>
      simp only [matchR, List.map_cons]
      rw [evalPred_foldCase, starLoop_fold p t (some c) k k' hk]
      rfl
  | bound =>
    intro prev s k k' hk
    simp only [matchR]
    rw [atBoundary_fold, hk prev s]

theorem searchR_fold (r : JSRegex) (s : List Nat) :
    ∀ prev : Option Nat,
      searchR r prev s = searchR r (prev.map foldCase) (s.map foldCase) := by
  induction s with
  | nil =>
    intro prev
    simpa [searchR] using
      matchR_fold r prev [] (fun _ _ => true) (fun _ _ => true) fun _ _ => rfl
  | cons c t ih =>
    intro prev
    simp only [searchR, List.map_cons]
    rw [matchR_fold r prev (c :: t) (fun _ _ => true) (fun _ _ => true) fun _ _ => rfl,
      ih (some c)]
    rfl

theorem regexTest_fold (r : JSRegex) (s : String) :
    regexTest r s = searchR r none ((codes s).map foldCase) := by
  simpa [regexTest] using searchR_fold r (codes s) none

theorem isBlocked_fold_congr (s u : String)
    (h : (codes s).map foldCase = (codes u).map foldCase) :
    isBlocked s = isBlocked u := by
  unfold isBlocked
  congr 1
  funext pr
  rw [regexTest_fold pr.1 s, regexTest_fold pr.1 u, h]

theorem starLoop_space_replicate (k : Option Nat → List Nat → Bool)
    (t : List Nat) (h : k (some 32) t = true) :
    ∀ m, starLoop .spaceCl k (some 32) (List.replicate m 32 ++ t) = true := by
  intro m
  induction m with
  | zero => cases t <;> simp_all [starLoop]
  | succ m ih =>
    simp [List.replicate_succ, starLoop, ih]
    refine Or.inr ?_
    decide


theorem isBlocked_sudo_spaces (n : Nat) (h : 1 ≤ n) :
    isBlocked ("sudo" ++ String.mk (List.replicate n ' ') ++ "RM -rf /") = true := by
  obtain ⟨m, rfl⟩ : ∃ m, n = m + 1 := ⟨n - 1, by omega⟩
  unfold isBlocked
  apply List.any_eq_true.mpr
  refine ⟨(patSudoRm, "/\\bsudo\\s+rm\\b/i"), ?_, ?_⟩
  · unfold BLOCKED_PATTERNS
    exact List.mem_cons_of_mem _
      (List.mem_cons_of_mem _ (List.mem_cons_of_mem _ (List.mem_cons_self _ _)))
  unfold regexTest
  rw [show codes ("sudo" ++ String.mk (List.replicate (m + 1) ' ') ++ "RM -rf /") =
      115 :: 117 :: 100 :: 111 :: (List.replicate (m + 1) 32 ++ codes "RM -rf /") from by
    simp [codes, String.toList]]
  rw [List.replicate_succ]
  simp only [searchR, Bool.or_eq_true]
  left
  simp only [patSudoRm, seqR, lits, lit, List.foldr, matchR, starLoop, atBoundary,
    wordBefore, wordAfter, evalPred, List.cons_append, String.toList, List.map_cons]
  simp only [Bool.and_eq_true]
  refine ⟨by decide, by decide, by decide, by decide, by decide, by decide, ?_⟩
  exact starLoop_space_replicate _ _ (by decide) m

/-! ## Claim theorems and supporting lemmas -/

theorem isPrefixOf_self_append (l suf : List Char) :
    l.isPrefixOf (l ++ suf) = true := by
  induction l with
  | nil => simp [List.isPrefixOf]
  | cons c t ih => simp [List.isPrefixOf, ih]

theorem listSubOf_mid (pre l suf : List Char) :
    listSubOf l (pre ++ (l ++ suf)) = true := by
  induction pre with
  | nil =>
    cases hl : l ++ suf with
    | nil =>
      have : l = [] := by
        cases l
        · rfl
        · simp_all
      simp [listSubOf, this, List.isEmpty]
    | cons c t =>
      simp only [List.nil_append, hl, listSubOf]
      rw [← hl, isPrefixOf_self_append]
      simp
  | cons c t ih => simp [listSubOf, ih]

theorem substrOf_blockedMessage (pstr : String) :
    substrOf pstr (blockedMessage pstr) = true := by
  unfold substrOf blockedMessage
  have : ("This command has been blocked for safety. The pattern \"" ++ pstr ++
      "\" is not allowed. " ++
      "Destructive commands like rm -rf, sudo rm, mkfs, dd, etc. are not permitted.").toList =
      "This command has been blocked for safety. The pattern \"".toList ++
      (pstr.toList ++ ("\" is not allowed. ".toList ++
        "Destructive commands like rm -rf, sudo rm, mkfs, dd, etc. are not permitted.".toList)) := by
    simp [String.toList]
  rw [this]
  exact listSubOf_mid _ _ _

theorem firstBlocked_eq_some (cmd : String) (h : isBlocked cmd = true) :
    firstBlocked cmd = some (firstBlockedStr cmd) := by
  unfold isBlocked at h
  obtain ⟨pr, hmem, hp⟩ := List.any_eq_true.mp h
  have hs : (BLOCKED_PATTERNS.find? fun pr => regexTest pr.1 cmd).isSome := by
    rw [List.find?_isSome]
    exact ⟨pr, hmem, hp⟩
  obtain ⟨q, hq⟩ := Option.isSome_iff_exists.mp hs
  unfold firstBlocked firstBlockedStr firstBlocked
  rw [hq]
  rfl

theorem firstBlockedStr_mem (cmd : String) (h : isBlocked cmd = true) :
    firstBlockedStr cmd ∈ BLOCKED_PATTERNS.map Prod.snd := by
  have hsome := firstBlocked_eq_some cmd h
  unfold firstBlocked at hsome
  obtain ⟨pr, hfind, hsnd⟩ := Option.map_eq_some'.mp hsome
  rw [← hsnd]
  exact List.mem_map_of_mem Prod.snd (List.mem_of_find?_eq_some hfind)

theorem bashTool_blocked (cmd : String) (t : Option Int) (exec : ExecOutcome)
    (h : isBlocked cmd = true) :
    bashTool cmd t exec =
      .fault (blockedMessage (firstBlockedStr cmd))
        "This command may be blocked for safety reasons, or the path may be invalid" := by
  have hp := firstBlocked_eq_some cmd h
  unfold bashTool fsBash
  rw [hp]

/-- Claim C9: every `todoWrite` call replaces the entire todo list — the
store after a call is exactly the mapped input list, so in the two-call
scenario (first call creates one pending item, second call re-sends the
echoed id as completed) the store holds exactly one item in completed
state; items not re-sent are dropped, never accumulated. -/
theorem claimC9_todoWrite_replaces :
    (∀ (now : Nat) (ts : List TodoInput) (store : List TodoR),
      todoWriteStore now ts store = mapTodos now ts) ∧
    todoWriteStore 2000 [⟨some "todo-1000-0", "Scan repo", .completed⟩]
        (todoWriteStore 1000 [⟨none, "Scan repo", .pending⟩] []) =
      [⟨"todo-1000-0", "Scan repo", .completed⟩] ∧
    todoWriteStore 1000 [⟨none, "Scan repo", .pending⟩] [] =
      [⟨"todo-1000-0", "Scan repo", .pending⟩] :=
  ⟨fun _ _ _ => rfl, by decide, by decide⟩

/-- Claim C5 counterexample: a supplied caller timeout of 0 is falsy in
`timeout || 30000`, so the dispatched timeout is 30000 and not
`min 0 120000 = 0` — the claim fails at this input. -/
theorem claimC5_counterexample :
    rendererBashTimeout (some 0) = 30000 ∧
    bashDispatchTimeout (some 0) = 30000 ∧
    min (0 : Int) 120000 = 0 ∧ (30000 : Int) ≠ 0 :=
  ⟨rfl, rfl, by decide, by decide⟩

/-- Claim C5 (amended): the timeout dispatched to the execution primitive
equals `min callerTimeout 120000` for every nonzero supplied timeout, and
30000 when the timeout is absent or zero (JavaScript falsiness); in
particular a supplied 200000 is clamped to 120000. -/
theorem claimC5_timeout_clamp :
    (∀ t : Int, t ≠ 0 →
      rendererBashTimeout (some t) = min t 120000 ∧
      bashDispatchTimeout (some t) = min t 120000) ∧
    rendererBashTimeout none = 30000 ∧
    bashDispatchTimeout none = 30000 ∧
    rendererBashTimeout (some 0) = 30000 ∧
    bashDispatchTimeout (some 200000) = 120000 := by
  refine ⟨fun t ht => ⟨?_, ?_⟩, rfl, rfl, rfl, rfl⟩
  · simp only [rendererBashTimeout, jsOrInt]
    rw [if_neg ht]
  · simp only [bashDispatchTimeout, fsBashTimeout, rendererBashTimeout, jsOrInt]
    rw [if_neg ht]
    have hne : min t 120000 ≠ 0 := by
      rcases le_total t 120000 with h | h
      · rw [min_eq_left h]; exact ht
      · rw [min_eq_right h]; decide
    rw [if_neg hne]

/-- Witness for claim C5 at the spec scenario `timeout: 200000`. -/
theorem claimC5_timeout_clamp_witness :
    (rendererBashTimeout (some 200000) = min 200000 120000 ∧
      bashDispatchTimeout (some 200000) = min 200000 120000) ∧
    rendererBashTimeout none = 30000 :=
  ⟨claimC5_timeout_clamp.1 200000 (by decide), claimC5_timeout_clamp.2.1⟩

/-- Claim C2 counterexample: on a registry network error the agent-facing
`searchSkills` tool returns an empty-result Success, not a Failure — the
main-process handler has already degraded the network error to `[]`, so
the tool's catch branch never sees it. -/
theorem claimC2_counterexample :
    searchSkillsTool "whatsapp" (.handled .netError) =
      .okEmpty "No skills found for \"whatsapp\". You may need to use the browser instead." ∧
    isFailureResult (searchSkillsTool "whatsapp" (.handled .netError)) = false ∧
    uiSearchSkillRegistry (.handled .netError) = [] :=
  ⟨rfl, rfl, rfl⟩

/-- Claim C2 (amended): a network error (or non-ok HTTP status) in the
registry search is degraded to an empty list inside the main-process
handler, so the UI-facing search path and the agent-facing `searchSkills`
tool both observe an empty Success for every query; `searchSkills`
returns a Failure carrying the browser-fallback suggestion only when the
IPC invocation itself faults. -/
theorem claimC2_network_error_both_paths :
    (∀ q : String,
      uiSearchSkillRegistry (.handled .netError) = [] ∧
      searchSkillsTool q (.handled .netError) =
        .okEmpty ("No skills found for \"" ++ q ++
          "\". You may need to use the browser instead.") ∧
      ∀ status : Nat, searchSkillsTool q (.handled (.httpError status)) =
        .okEmpty ("No skills found for \"" ++ q ++
          "\". You may need to use the browser instead.")) ∧
    (∀ (q m : String), searchSkillsTool q (.ipcFault m) =
      .failure m "Network error. You can try the browser instead.") :=
  ⟨fun _ => ⟨rfl, rfl, fun _ => rfl⟩, fun _ _ => rfl⟩

/-- Claim C1 counterexample: `browserClick` invoked with no browser
configured does not fail fast — it dispatches to the automation
collaborator, raises no selection-dialog signal, and its reply carries no
`needsBrowserSetup` marker (while `checkBrowserConfigured` itself would
have raised the signal, `browserClick` never calls it). -/
theorem claimC1_counterexample :
    (runBrowserTool .click "Sign In" "" none (.ok {})).2 =
      BrowserEffects.mk 0 true ∧
    (runBrowserTool .click "Sign In" "" none (.ok {})).1.needsBrowserSetup = false ∧
    checkBrowserConfigured none = ⟨false, true, 1⟩ :=
  ⟨rfl, rfl, rfl⟩

/-- Claim C1 (amended): only `browserNavigate` is gated on the browser
configuration — invoked while unconfigured it fails fast with a reply
carrying `needsBrowserSetup`, raises the selection-dialog signal exactly
once, and does not dispatch; every other browser tool dispatches to the
automation collaborator unconditionally, raises no dialog signal, and
never returns a `needsBrowserSetup` marker. -/
theorem claimC1_only_navigate_gated :
    (∀ (url : String) (settings : Option SettingsRec) (api : ApiOutcome),
      jsTruthyOptStr (settings.bind SettingsRec.preferredBrowser) = false →
      runBrowserTool .navigate url "" settings api =
        ({ error := true
           message := some "Browser not configured. A dialog has been shown to the user to select their preferred browser."
           suggestion := some "Wait for the user to select a browser, then try again."
           needsBrowserSetup := true }, ⟨1, false⟩)) ∧
    (∀ (tool : BrowserTool) (a1 a2 : String) (settings : Option SettingsRec)
        (api : ApiOutcome), tool ≠ .navigate →
      (runBrowserTool tool a1 a2 settings api).2 = ⟨0, true⟩ ∧
      (runBrowserTool tool a1 a2 settings api).1.needsBrowserSetup = false) := by
  constructor
  · intro url settings api h
    simp [runBrowserTool, browserNavigateTool, checkBrowserConfigured, h]
  · intro tool a1 a2 settings api h
    cases tool with
    | navigate => exact absurd rfl h
    | getContent =>
      cases api with
      | thrown m => exact ⟨rfl, rfl⟩
      | ok r =>
        constructor <;>
          · simp only [runBrowserTool, browserGetContentTool]
            split <;> rfl
    | click =>
      cases api with
      | thrown m => exact ⟨rfl, rfl⟩
      | ok r =>
        constructor <;>
          · simp only [runBrowserTool, browserClickTool]
            split <;> rfl
    | typeText =>
      cases api with
      | thrown m => exact ⟨rfl, rfl⟩
      | ok r =>
        constructor <;>
          · simp only [runBrowserTool, browserTypeTool]
            split <;> rfl
    | press =>
      cases api with
      | thrown m => exact ⟨rfl, rfl⟩
      | ok r =>
        constructor <;>
          · simp only [runBrowserTool, browserPressTool]
            split <;> rfl
    | getLinks =>
      cases api with
      | thrown m => exact ⟨rfl, rfl⟩
      | ok r =>
        constructor <;>
          · simp only [runBrowserTool, browserGetLinksTool]
            split <;> rfl
    | scroll =>
      cases api with
      | thrown m => exact ⟨rfl, rfl⟩
      | ok r =>
        constructor <;>
          · simp only [runBrowserTool, browserScrollTool]
            split <;> rfl
    | screenshot =>
      cases api with
      | thrown m => exact ⟨rfl, rfl⟩
      | ok r =>
        constructor <;>
          · simp only [runBrowserTool, browserScreenshotTool]
            split <;> rfl

/-- Witness for claim C1: navigate fails fast when unconfigured, scroll
dispatches. -/
theorem claimC1_witness :
    runBrowserTool .navigate "https://github.com" "" none (.ok {}) =
      ({ error := true
         message := some "Browser not configured. A dialog has been shown to the user to select their preferred browser."
         suggestion := some "Wait for the user to select a browser, then try again."
         needsBrowserSetup := true }, ⟨1, false⟩) ∧
    ((runBrowserTool .scroll "down" "" none (.ok {})).2 = ⟨0, true⟩ ∧
      (runBrowserTool .scroll "down" "" none (.ok {})).1.needsBrowserSetup = false) :=
  ⟨claimC1_only_navigate_gated.1 "https://github.com" none (.ok {}) (by decide),
   claimC1_only_navigate_gated.2 .scroll "down" "" none (.ok {}) (by decide)⟩

theorem firstBlocked_eq_none (cmd : String) (h : isBlocked cmd = false) :
    firstBlocked cmd = none := by
  unfold isBlocked at h
  unfold firstBlocked
  rw [List.find?_eq_none.mpr]
  · rfl
  · intro pr hmem
    have := List.any_eq_false.mp h pr hmem
    simp_all

/-- Claim C4 counterexample: on a non-zero exit whose captured stderr is
empty, the returned Failure carries the exec error message in its stderr
field instead of the captured (empty) stderr. -/
theorem claimC4_counterexample :
    bashTool "ls" none (.err (some 1) false "out" "" "Command failed: ls") =
      .failed 1 "out" "Command failed: ls" "Command failed with exit code 1"
        "Error output: Command failed: ls" ∧
    ("Command failed: ls" : String) ≠ "" :=
  ⟨by decide, by decide⟩

/-- Claim C4 (amended): for every allowed command whose process exits with
a non-zero code (not killed), the bash tool returns a Failure result — not
a thrown fault — carrying the exit code, the captured stdout, and the
captured stderr whenever it is nonempty; when the captured stderr is
empty the exec error message is substituted for it. -/
theorem claimC4_nonzero_exit_failure :
    ∀ (cmd : String) (t : Option Int) (n : Nat) (out errS msg : String),
      isBlocked cmd = false → n ≠ 0 →
      bashTool cmd t (.err (some n) false out errS msg) =
        .failed n out (jsOrStr errS msg)
          ("Command failed with exit code " ++ toString n)
          (bashFailedSuggestion (jsOrStr errS msg)) ∧
      (errS ≠ "" → jsOrStr errS msg = errS) := by
  intro cmd t n out errS msg hb hn
  constructor
  · unfold bashTool fsBash
    rw [firstBlocked_eq_none cmd hb]
    simp only [jsExitCode, if_neg hn, jsOrStr_empty_right]
    simp [hn]
  · intro hne
    unfold jsOrStr
    rw [if_neg hne]

/-- Witness for claim C4 at a concrete non-zero exit. -/
theorem claimC4_witness :
    bashTool "ls" none (.err (some 1) false "hello" "oops" "Command failed: ls") =
      .failed 1 "hello" (jsOrStr "oops" "Command failed: ls")
        ("Command failed with exit code " ++ toString 1)
        (bashFailedSuggestion (jsOrStr "oops" "Command failed: ls")) ∧
    (("oops" : String) ≠ "" → jsOrStr "oops" "Command failed: ls" = "oops") :=
  claimC4_nonzero_exit_failure "ls" none 1 "hello" "oops" "Command failed: ls"
    (by decide) (by decide)

theorem mutualExclusion_setQuestions (now : Nat) (inputs : List QuestionInput) :
    mutualExclusion (setQuestionsState now inputs).1 := by
  intro s hs q hq
  simp only [setQuestionsState, Option.some.injEq] at hs
  subst hs
  simp only [List.mem_map] at hq
  obtain ⟨p, _, rfl⟩ := hq
  simp

theorem mutualExclusion_applyQOp (op : QOp) (st : QuestionState)
    (h : mutualExclusion st) : mutualExclusion (applyQOp op st) := by
  cases op with
  | select qid oid =>
    cases st with
    | none => intro s hs; simp [applyQOp, selectOptionState] at hs
    | some s0 =>
      intro s hs q hq
      simp only [applyQOp, selectOptionState, Option.some.injEq] at hs
      subst hs
      simp only [List.mem_map] at hq
      obtain ⟨q0, hq0, rfl⟩ := hq
      by_cases hid : q0.id = qid
      · simp [hid]
      · simp only [if_neg hid]
        exact h s0 rfl q0 hq0
  | custom qid ans =>
    cases st with
    | none => intro s hs; simp [applyQOp, setCustomAnswerState] at hs
    | some s0 =>
      intro s hs q hq
      simp only [applyQOp, setCustomAnswerState, Option.some.injEq] at hs
      subst hs
      simp only [List.mem_map] at hq
      obtain ⟨q0, hq0, rfl⟩ := hq
      by_cases hid : q0.id = qid
      · simp [hid]
      · simp only [if_neg hid]
        exact h s0 rfl q0 hq0

theorem mutualExclusion_applyQOps (ops : List QOp) (st : QuestionState)
    (h : mutualExclusion st) : mutualExclusion (applyQOps ops st) := by
  induction ops generalizing st with
  | nil => exact h
  | cons op ops ih =>
    have : applyQOps (op :: ops) st = applyQOps ops (applyQOp op st) := rfl
    rw [this]
    exact ih _ (mutualExclusion_applyQOp op st h)

theorem selectOption_fields (qid oid : String) (st : QuestionState)
    (s : QuestionSetR) (q : QuestionR)
    (hs : selectOptionState qid oid st = some s) (hq : q ∈ s.questions)
    (hid : q.id = qid) : q.selectedOptionId = some oid ∧ q.customAnswer = none := by
  cases st with
  | none => simp [selectOptionState] at hs
  | some s0 =>
    simp only [selectOptionState, Option.some.injEq] at hs
    subst hs
    simp only [List.mem_map] at hq
    obtain ⟨q0, _, rfl⟩ := hq
    by_cases h0 : q0.id = qid
    · simp [h0]
    · rw [if_neg h0] at hid ⊢
      exact absurd hid h0

theorem setCustomAnswer_fields (qid ans : String) (st : QuestionState)
    (s : QuestionSetR) (q : QuestionR)
    (hs : setCustomAnswerState qid ans st = some s) (hq : q ∈ s.questions)
    (hid : q.id = qid) : q.selectedOptionId = none ∧ q.customAnswer = some ans := by
  cases st with
  | none => simp [setCustomAnswerState] at hs
  | some s0 =>
    simp only [setCustomAnswerState, Option.some.injEq] at hs
    subst hs
    simp only [List.mem_map] at hq
    obtain ⟨q0, _, rfl⟩ := hq
    by_cases h0 : q0.id = qid
    · simp [h0]
    · rw [if_neg h0] at hid ⊢
      exact absurd hid h0

/-- Claim C7: `selectOption` sets the selected option id and clears the
custom answer on the targeted question, `setCustomAnswer` sets the custom
answer and clears the selected option id, and after `setQuestions`
followed by any sequence of these two operations no question of the
active set holds both fields. -/
theorem claimC7_mutual_exclusion :
    (∀ (qid oid : String) (st : QuestionState) (s : QuestionSetR) (q : QuestionR),
      selectOptionState qid oid st = some s → q ∈ s.questions → q.id = qid →
      q.selectedOptionId = some oid ∧ q.customAnswer = none) ∧
    (∀ (qid ans : String) (st : QuestionState) (s : QuestionSetR) (q : QuestionR),
      setCustomAnswerState qid ans st = some s → q ∈ s.questions → q.id = qid →
      q.selectedOptionId = none ∧ q.customAnswer = some ans) ∧
    (∀ (now : Nat) (inputs : List QuestionInput) (ops : List QOp),
      mutualExclusion (applyQOps ops (setQuestionsState now inputs).1)) :=
  ⟨selectOption_fields, setCustomAnswer_fields,
   fun now inputs ops =>
     mutualExclusion_applyQOps ops _ (mutualExclusion_setQuestions now inputs)⟩

/-- Witness for claim C7: after selecting an option and then writing a
custom answer on the same question, the resulting question holds only the
custom answer. -/
theorem claimC7_witness :
    ¬((QuestionR.mk "q1" "Which?" [⟨"a", "Option A"⟩, ⟨"b", "Option B"⟩] true
        none (some "my own")).selectedOptionId.isSome = true ∧
      (QuestionR.mk "q1" "Which?" [⟨"a", "Option A"⟩, ⟨"b", "Option B"⟩] true
        none (some "my own")).customAnswer.isSome = true) :=
  claimC7_mutual_exclusion.2.2 7
    [⟨"q1", "Which?", [⟨"a", "Option A"⟩, ⟨"b", "Option B"⟩], true⟩]
    [.select "q1" "a", .custom "q1" "my own"]
    _ rfl _ (by decide)

theorem recUpsert_vals (m : List (String × AnswerPair)) (k : String)
    (v : AnswerPair) (hm : ∀ p ∈ m, p.2 = v) :
    ∀ p ∈ recUpsert m k v, p.2 = v := by
  unfold recUpsert
  split
  · intro p hp
    simp only [List.mem_map] at hp
    obtain ⟨p0, hp0, rfl⟩ := hp
    split
    · rfl
    · exact hm p0 hp0
  · intro p hp
    rcases List.mem_append.mp hp with h | h
    · exact hm p h
    · simp only [List.mem_singleton] at h
      rw [h]

theorem recUpsert_keys_mem (m : List (String × AnswerPair)) (k : String)
    (v : AnswerPair) (x : String) :
    (x ∈ (recUpsert m k v).map Prod.fst) ↔ (x ∈ m.map Prod.fst ∨ x = k) := by
  unfold recUpsert
  split
  · rename_i hany
    have hkeys : (m.map fun p => if p.1 == k then (k, v) else p).map Prod.fst =
        m.map Prod.fst := by
      rw [List.map_map]
      apply List.map_congr_left
      intro p _
      simp only [Function.comp]
      split
      · rename_i hbeq
        simp only [beq_iff_eq] at hbeq
        exact hbeq.symm
      · rfl
    rw [hkeys]
    constructor
    · exact Or.inl
    · rintro (h | rfl)
      · exact h
      · obtain ⟨p0, hp0, hbeq⟩ := List.any_eq_true.mp hany
        simp only [beq_iff_eq] at hbeq
        rw [← hbeq]
        exact List.mem_map_of_mem Prod.fst hp0
  · simp [List.mem_append]

theorem foldUpsert_keys (qs : List QuestionR) :
    ∀ (m : List (String × AnswerPair)) (x : String),
      (x ∈ (qs.foldl (fun m q => recUpsert m q.id (answerOf q)) m).map Prod.fst) ↔
      (x ∈ m.map Prod.fst ∨ x ∈ qs.map QuestionR.id) := by
  induction qs with
  | nil => simp
  | cons q qs ih =>
    intro m x
    have : (q :: qs).foldl (fun m q => recUpsert m q.id (answerOf q)) m =
        qs.foldl (fun m q => recUpsert m q.id (answerOf q))
          (recUpsert m q.id (answerOf q)) := rfl
    rw [this, ih, recUpsert_keys_mem]
    simp only [List.map_cons, List.mem_cons]
    tauto

theorem foldUpsert_vals (v : AnswerPair) (qs : List QuestionR)
    (hqs : ∀ q ∈ qs, answerOf q = v) :
    ∀ (m : List (String × AnswerPair)), (∀ p ∈ m, p.2 = v) →
      ∀ p ∈ qs.foldl (fun m q => recUpsert m q.id (answerOf q)) m, p.2 = v := by
  induction qs with
  | nil => intro m hm; exact hm
  | cons q qs ih =>
    intro m hm
    have hstep : ∀ p ∈ recUpsert m q.id (answerOf q), p.2 = v := by
      rw [hqs q (List.mem_cons_self q qs)]
      exact recUpsert_vals m q.id v hm
    exact ih (fun q' hq' => hqs q' (List.mem_cons_of_mem q hq')) _ hstep

/-- Claim C8: `setQuestions` followed immediately by `submitAnswers`
yields an answers map whose key set is exactly the assigned question ids
(with `q-${i}` fallbacks for questions whose supplied id is falsy) and in
which every entry is `{selectedOption: undefined, customAnswer:
undefined}`. -/
theorem claimC8_roundtrip :
    ∀ (now : Nat) (inputs : List QuestionInput),
      (∀ x : String,
        (x ∈ (submitAnswersState (setQuestionsState now inputs).1).1.map Prod.fst) ↔
        x ∈ assignedIds inputs) ∧
      (submitAnswersState (setQuestionsState now inputs).1).1.all
        (fun p => p.2 == AnswerPair.mk none none) = true := by
  intro now inputs
  have hqs : (setQuestionsState now inputs).1 = some
      { id := "qs-" ++ toString now
        questions := inputs.enum.map fun p =>
          { id := jsOrStr p.2.id ("q-" ++ toString p.1)
            question := p.2.question
            options := p.2.options
            allowCustom := p.2.allowCustom
            selectedOptionId := none
            customAnswer := none }
        currentIndex := 0
        submitted := false } := rfl
  rw [hqs]
  constructor
  · intro x
    show (x ∈ ((inputs.enum.map _).foldl
        (fun m q => recUpsert m q.id (answerOf q)) []).map Prod.fst) ↔ _
    rw [foldUpsert_keys]
    simp only [List.map_nil, List.mem_nil_iff, false_or, List.map_map]
    unfold assignedIds
    rw [show ((fun q => QuestionR.id q) ∘ fun p : Nat × QuestionInput =>
        (⟨jsOrStr p.2.id ("q-" ++ toString p.1), p.2.question, p.2.options,
          p.2.allowCustom, none, none⟩ : QuestionR)) =
        (fun p : Nat × QuestionInput => jsOrStr p.2.id ("q-" ++ toString p.1))
      from rfl]
  · rw [List.all_eq_true]
    intro p hp
    rw [beq_iff_eq]
    refine foldUpsert_vals ⟨none, none⟩ _ ?_ [] (by simp) p hp
    intro q hq
    simp only [List.mem_map] at hq
    obtain ⟨p0, _, rfl⟩ := hq
    rfl

/-- Witness for claim C8 on a concrete question list with one fallback
id. -/
theorem claimC8_witness :
    (("q-0" ∈ (submitAnswersState (setQuestionsState 3
        [⟨"", "A?", [], true⟩, ⟨"qx", "B?", [], false⟩]).1).1.map Prod.fst) ↔
      "q-0" ∈ assignedIds [⟨"", "A?", [], true⟩, ⟨"qx", "B?", [], false⟩]) ∧
    (submitAnswersState (setQuestionsState 3
        [⟨"", "A?", [], true⟩, ⟨"qx", "B?", [], false⟩]).1).1.all
      (fun p => p.2 == AnswerPair.mk none none) = true :=
  ⟨(claimC8_roundtrip 3 [⟨"", "A?", [], true⟩, ⟨"qx", "B?", [], false⟩]).1 "q-0",
   (claimC8_roundtrip 3 [⟨"", "A?", [], true⟩, ⟨"qx", "B?", [], false⟩]).2⟩

theorem scanRx_escList (l : List Char) :
    ∀ (d : Nat) (q : QuantState), scanRx (escList l) d (.pat q) = (d == 0) := by
  induction l with
  | nil => intro d q; rfl
  | cons c t ih =>
    intro d q
    by_cases hm : isMetaChar c = true
    · have he : escList (c :: t) = '\\' :: c :: escList t := by
        simp [escList, hm]
      rw [he]
      have h1 : scanStep '\\' d (.pat q) = some (d, .escPat) := by
        simp [scanStep, patChar]
      have h2 : scanStep c d .escPat = some (d, .pat .atom) := rfl
      simp only [scanRx, h1, h2]
      exact ih d .atom
    · rw [Bool.not_eq_true] at hm
      have he : escList (c :: t) = c :: escList t := by
        simp [escList, hm]
      rw [he]
      have hne := hm
      simp only [isMetaChar, Bool.or_eq_false_iff, beq_eq_false_iff_ne, ne_eq] at hne
      obtain ⟨⟨⟨⟨⟨⟨⟨⟨⟨⟨⟨⟨⟨h1, h2⟩, h3⟩, h4⟩, h5⟩, h6⟩, h7⟩, h8⟩, h9⟩, h10⟩,
        h11⟩, h12⟩, h13⟩, h14⟩ := hne
      have hstep : scanStep c d (.pat q) = some (d, .pat .atom) := by
        simp [scanStep, patChar, h1, h2, h3, h4, h5, h6, h7, h8, h9, h10, h11,
          h12, h13, h14]
      simp only [scanRx, hstep]
      exact ih d .atom

theorem jsRegexValid_escape (p : String) :
    jsRegexValid (escapeRegExp p) = true := by
  unfold jsRegexValid escapeRegExp
  have : (String.mk (escList p.toList)).toList = escList p.toList := rfl
  rw [this, scanRx_escList]
  rfl

theorem matchR_litSeq (l : List Nat) :
    ∀ (prev : Option Nat) (s : List Nat),
      matchR (litSeq l) prev s (fun _ _ => true) = ciPrefixOf l s := by
  induction l with
  | nil => intro prev s; rfl
  | cons c t ih =>
    intro prev s
    cases s with
    | nil => rfl
    | cons a u =>
      show (evalPred (.litCI c) a &&
        matchR (litSeq t) (some a) u (fun _ _ => true)) = _
      rw [ih (some a) u]
      rfl

theorem searchR_litSeq (l : List Nat) :
    ∀ (prev : Option Nat) (s : List Nat),
      searchR (litSeq l) prev s = ciSubstrOf l s := by
  intro prev s
  induction s generalizing prev with
  | nil =>
    show matchR (litSeq l) prev [] (fun _ _ => true) = _
    rw [matchR_litSeq]
    rfl
  | cons a u ih =>
    show (matchR (litSeq l) prev (a :: u) (fun _ _ => true) ||
      searchR (litSeq l) (some a) u) = _
    rw [matchR_litSeq, ih (some a)]
    rfl

/-- Claim C6: grep pattern compilation never throws — for every pattern
string the escaped fallback is syntactically valid in the modelled
ECMAScript grammar (so the second `new RegExp` cannot throw), an invalid
pattern is rebuilt as the escaped literal fallback, and that fallback
regex matches a line exactly when the pattern occurs in the line as a
case-insensitive literal substring. -/
theorem claimC6_grep_fallback :
    ∀ p : String,
      jsRegexValid (escapeRegExp p) = true ∧
      (jsRegexValid p = false →
        grepBuildRegex p = .literalFallback (escapeRegExp p)) ∧
      (∀ line : String,
        regexTest (escapedLiteralRegex p) line = ciSubstrOf (codes p) (codes line)) := by
  intro p
  refine ⟨jsRegexValid_escape p, fun hinv => ?_, fun line => ?_⟩
  · unfold grepBuildRegex
    rw [hinv]
    rfl
  · unfold regexTest escapedLiteralRegex
    exact searchR_litSeq (codes p) none (codes line)

/-- Witness for claim C6 at the spec's invalid pattern `(`. -/
theorem claimC6_witness :
    jsRegexValid (escapeRegExp "(") = true ∧
    grepBuildRegex "(" = .literalFallback (escapeRegExp "(") ∧
    regexTest (escapedLiteralRegex "(") "A(b" = ciSubstrOf (codes "(") (codes "A(b") ∧
    jsRegexValid "(" = false ∧
    escapeRegExp "(" = "\\(" ∧
    ciSubstrOf (codes "(") (codes "A(b") = true :=
  ⟨(claimC6_grep_fallback "(").1,
   (claimC6_grep_fallback "(").2.1 (by decide),
   (claimC6_grep_fallback "(").2.2 "A(b",
   by decide, by decide, by decide⟩

/-- Claim C3: every command matching some blocked pattern is refused by
the bash tool with a Failure whose message contains the text of the first
matched pattern, independently of the execution collaborator (the command
is never executed); pattern matching is invariant under ASCII case
folding; and the spec's whitespace example family
`sudo<n spaces>RM -rf /` is blocked for every n ≥ 1. -/
theorem claimC3_blocked_gate :
    (∀ (cmd : String) (t : Option Int) (exec : ExecOutcome),
      isBlocked cmd = true →
      firstBlocked cmd = some (firstBlockedStr cmd) ∧
      firstBlockedStr cmd ∈ BLOCKED_PATTERNS.map Prod.snd ∧
      bashTool cmd t exec =
        .fault (blockedMessage (firstBlockedStr cmd))
          "This command may be blocked for safety reasons, or the path may be invalid" ∧
      substrOf (firstBlockedStr cmd) (blockedMessage (firstBlockedStr cmd)) = true) ∧
    (∀ s u : String, (codes s).map foldCase = (codes u).map foldCase →
      isBlocked s = isBlocked u) ∧
    (∀ n : Nat, 1 ≤ n →
      isBlocked ("sudo" ++ String.mk (List.replicate n ' ') ++ "RM -rf /") = true) :=
  ⟨fun cmd t exec h =>
    ⟨firstBlocked_eq_some cmd h, firstBlockedStr_mem cmd h,
     bashTool_blocked cmd t exec h, substrOf_blockedMessage _⟩,
   isBlocked_fold_congr, isBlocked_sudo_spaces⟩

/-- Witness for claim C3 at the spec's example `sudo   RM -rf /`. -/
theorem claimC3_witness :
    (firstBlocked "sudo   RM -rf /" = some (firstBlockedStr "sudo   RM -rf /") ∧
     firstBlockedStr "sudo   RM -rf /" ∈ BLOCKED_PATTERNS.map Prod.snd ∧
     bashTool "sudo   RM -rf /" none (.ok "" "") =
       .fault (blockedMessage (firstBlockedStr "sudo   RM -rf /"))
         "This command may be blocked for safety reasons, or the path may be invalid" ∧
     substrOf (firstBlockedStr "sudo   RM -rf /")
       (blockedMessage (firstBlockedStr "sudo   RM -rf /")) = true) ∧
    isBlocked ("sudo" ++ String.mk (List.replicate 3 ' ') ++ "RM -rf /") = true ∧
    firstBlockedStr "sudo   RM -rf /" =
      "/\\brm\\s+(-[a-zA-Z]*f|-[a-zA-Z]*r|--force|--recursive)/i" :=
  ⟨claimC3_blocked_gate.1 "sudo   RM -rf /" none (.ok "" "") (by decide),
   claimC3_blocked_gate.2.2 3 (by decide),
   by decide⟩

/-- Claim C10: the safety gate blocks every command matched by the
`>\s*\/dev\/(sda|hda|null)` pattern — including redirections to
`/dev/null` — so the harmless `ls > /dev/null` is classified as blocked
and the bash tool returns a Failure for it instead of executing it. -/
theorem claimC10_devnull :
    (∀ cmd : String, regexTest patDevWrite cmd = true → isBlocked cmd = true) ∧
    isBlocked "ls > /dev/null" = true ∧
    firstBlocked "ls > /dev/null" = some "/>\\s*\\/dev\\/(sda|hda|null)/i" ∧
    (∀ (t : Option Int) (exec : ExecOutcome),
      bashTool "ls > /dev/null" t exec =
        .fault (blockedMessage "/>\\s*\\/dev\\/(sda|hda|null)/i")
          "This command may be blocked for safety reasons, or the path may be invalid") := by
  refine ⟨?_, by decide, by decide, ?_⟩
  · intro cmd h
    unfold isBlocked
    apply List.any_eq_true.mpr
    refine ⟨(patDevWrite, "/>\\s*\\/dev\\/(sda|hda|null)/i"), ?_, h⟩
    unfold BLOCKED_PATTERNS
    exact List.mem_cons_of_mem _ (List.mem_cons_of_mem _ (List.mem_cons_of_mem _
      (List.mem_cons_of_mem _ (List.mem_cons_of_mem _ (List.mem_cons_of_mem _
        (List.mem_cons_of_mem _ (List.mem_cons_of_mem _ (List.mem_cons_of_mem _
          (List.mem_cons_self _ _)))))))))
  · intro t exec
    have h := bashTool_blocked "ls > /dev/null" t exec (by decide)
    rwa [show firstBlockedStr "ls > /dev/null" = "/>\\s*\\/dev\\/(sda|hda|null)/i"
      from by decide] at h

/-- Witness for claim C10 at `ls > /dev/null` and a second redirection
command. -/
theorem claimC10_witness :
    isBlocked "ls > /dev/null" = true ∧
    bashTool "ls > /dev/null" none (.ok "" "") =
      .fault (blockedMessage "/>\\s*\\/dev\\/(sda|hda|null)/i")
        "This command may be blocked for safety reasons, or the path may be invalid" ∧
    regexTest patDevWrite "echo hi > /dev/null" = true ∧
    isBlocked "echo hi > /dev/null" = true :=
  ⟨claimC10_devnull.2.1,
   claimC10_devnull.2.2.2 none (.ok "" ""),
   by decide,
   claimC10_devnull.1 "echo hi > /dev/null" (by decide)⟩

end OpenCoWork
